import Mathlib

/-!
Verification development for the Craft-Canvas object graph engine.

The definitions below are a shallow embedding of the application source:
* the reactive property-propagation engine (`updateShapeAndPropagate` in `src/App.tsx`),
* the sequenced-block executor (`executeProgrammingStep` in `src/App.tsx`),
* the Firmata wire codec (`processFirmataMessage` / `sendFirmataData` in `src/App.tsx`),
* the numeric-field enumeration (`getTargetProperties` in `src/components/PropertiesPanel.tsx`),
* the object-deletion handler (`deleteShape` in `src/App.tsx`).

Conventions of the embedding:
* JS numbers are modelled as rationals (`ℚ`); the code never relies on
  floating-point rounding in the claims under study.
* JS objects holding the numeric, dynamically-writable fields of a shape
  (`value`, `min`, `max`, `currentState`, `x`, `y`, ...) are modelled as
  association lists `List (String × ℚ)`; the object-spread merge
  `{ ...oldShape, ...props }` is modelled by `mergeF`.  The engine's write
  paths only ever carry numeric values (slider values, parsed switch
  literals, mapped pin readings), so non-numeric fields (`id`, `type`,
  binding strings) are kept as typed fields that writes do not touch.
* Fallible or possibly non-terminating code is modelled with `Option`:
  the propagation worklist loop is fuel-indexed because a genuine binding
  cycle makes the source loop forever (acknowledged in the spec).
-/

namespace CraftCanvas

/-! ## JS helpers: `parseFloat` and `Math.round` -/

/-- Numeric value of a decimal digit character, `none` for other characters. -/
def digitVal (c : Char) : Option Nat :=
  if c.isDigit then some (c.toNat - 48) else none

/-- Splits a character list into its longest leading run of decimal digits
(as digit values) and the remainder. -/
def takeDigits : List Char → List Nat × List Char
  | [] => ([], [])
  | c :: rest =>
    match digitVal c with
    | some d => ((d :: (takeDigits rest).1), (takeDigits rest).2)
    | none => ([], c :: rest)

/-- Value of a big-endian list of digit values. -/
def natOfDigits (ds : List Nat) : Nat := ds.foldl (fun a d => 10 * a + d) 0

/-- Model of JavaScript `parseFloat`: skip leading whitespace, optional sign,
then the longest prefix `digits [. digits]`; `none` models `NaN` (no digits
at all).  Exponent notation is not modelled; no call site in the claims
under study uses it. -/
def parseFloat (s : String) : Option ℚ :=
  let cs := s.toList.dropWhile (fun c => c == ' ' || c == '\t' || c == '\n' || c == '\r')
  let signAndRest : ℚ × List Char :=
    match cs with
    | '-' :: r => (-1, r)
    | '+' :: r => (1, r)
    | r => (1, r)
  let intPart := takeDigits signAndRest.2
  let fracPart : List Nat × List Char :=
    match intPart.2 with
    | '.' :: r => takeDigits r
    | r => ([], r)
  if intPart.1 = [] ∧ fracPart.1 = [] then none
  else some (signAndRest.1 *
    ((natOfDigits intPart.1 : ℚ) + (natOfDigits fracPart.1 : ℚ) / (10 : ℚ) ^ fracPart.1.length))

/-- Model of JavaScript `Math.round` on the non-negative values it is applied
to here: round half towards positive infinity. -/
def jsRound (q : ℚ) : ℤ := ⌊q + 1 / 2⌋

/-! ## Data model (`src/types.ts` and object defaults in `src/App.tsx`) -/

/-- The tagged variants of a canvas object. -/
inductive ShapeType
  | circulo
  | retangulo
  | slider
  | programming
  | button
  | firmata
deriving DecidableEq, Repr

/-- Execution mode of a programming block. -/
inductive ExecMode
  | auto
  | manual
deriving DecidableEq, Repr

/-- One instruction of a programming block (`linhas` entry). -/
structure ProgrammingLine where
  targetObjectId : String
  property : String
  value : ℚ
  ordem : Nat
deriving DecidableEq, Repr

/-- The numeric, dynamically-addressable fields of a JS shape object. -/
abbrev NumProps := List (String × ℚ)

/-- Field read: first binding of the key wins (JS objects have unique keys;
the association lists built here keep that invariant).  A missing field
reads as 0; the modelled code paths only read fields the object has. -/
def getF (fields : NumProps) (k : String) : ℚ :=
  match fields.find? (fun kv => kv.1 == k) with
  | some kv => kv.2
  | none => 0

/-- Field write, mirroring JS object-spread semantics: an existing key keeps
its position and takes the new value, a new key is appended. -/
def setF (fields : NumProps) (k : String) (v : ℚ) : NumProps :=
  if fields.any (fun kv => kv.1 == k) then
    fields.map (fun kv => if kv.1 == k then (k, v) else kv)
  else fields ++ [(k, v)]

/-- Shallow merge `{ ...fields, ...props }` of a partial write into a field
record, later keys of `props` winning. -/
def mergeF (fields : NumProps) (props : NumProps) : NumProps :=
  props.foldl (fun acc kv => setF acc kv.1 kv.2) fields

/-- The JS `key in props` test used by the visited-set exemption. -/
def hasKey (props : NumProps) (k : String) : Bool :=
  props.any (fun kv => kv.1 == k)

/-- A canvas object.  Numeric fields live in `fields`; the binding and
variant data the engine branches on are typed fields. -/
structure Obj where
  id : String
  type : ShapeType
  fields : NumProps
  targetId : String
  targetProperty : String
  inheritedSliderId : Option String
  valueOn : String
  valueOff : String
  executionMode : ExecMode
  manualTriggerId : Option String
  linhas : List ProgrammingLine
deriving DecidableEq, Repr

/-- An object with all-default data, used to build concrete stores. -/
def baseObj (i : String) (t : ShapeType) : Obj :=
  { id := i, type := t, fields := [], targetId := "", targetProperty := "",
    inheritedSliderId := none, valueOn := "", valueOff := "",
    executionMode := ExecMode.auto, manualTriggerId := none, linhas := [] }

/-- Merge of a partial property write into one object:
`{ ...oldShape, ...props }`. -/
def mergeObj (o : Obj) (props : NumProps) : Obj :=
  { o with fields := mergeF o.fields props }

/-! ## PropagationEngine (`updateShapeAndPropagate`, `src/App.tsx:240-308`) -/

/-- One pending worklist write: `{ id, props }`. -/
structure Entry where
  id : String
  props : NumProps
deriving DecidableEq, Repr

/-- The slave value computed for an inherited slider
(`src/App.tsx:269-273`): map the master's value through the two ranges,
a zero master range producing the slave's `min`. -/
def slaveValue (master slave : Obj) : ℚ :=
  let masterRange := getF master.fields "max" - getF master.fields "min"
  let slaveRange := getF slave.fields "max" - getF slave.fields "min"
  if masterRange = 0 then getF slave.fields "min"
  else getF slave.fields "min" +
    ((getF master.fields "value" - getF master.fields "min") / masterRange) * slaveRange

/-- The slave updates enqueued while processing a slider value write
(`src/App.tsx:265-278`): every slider whose `inheritedSliderId` equals the
master's id, enqueued only when the computed value differs from its current
value, in store order. -/
def slaveEntries (objects : List Obj) (u : Obj) : List Entry :=
  objects.filterMap (fun c =>
    if c.type = ShapeType.slider ∧ c.inheritedSliderId = some u.id then
      if getF c.fields "value" ≠ slaveValue u c then
        some ⟨c.id, [("value", slaveValue u c)]⟩
      else none
    else none)

/-- Dependency discovery evaluated against the just-written object `u`
(`src/App.tsx:261-289`): the slider branch (target write, then slave scan)
followed by the switch branch (parsed literal to the bound target). -/
def discover (objects : List Obj) (u : Obj) (props : NumProps) : List Entry :=
  (if u.type = ShapeType.slider ∧ hasKey props "value" then
    (if u.targetId ≠ "" ∧ u.targetProperty ≠ "" then
      [⟨u.targetId, [(u.targetProperty, getF u.fields "value")]⟩]
    else []) ++ slaveEntries objects u
  else []) ++
  (if u.type = ShapeType.button ∧ hasKey props "currentState" then
    if u.targetId ≠ "" ∧ u.targetProperty ≠ "" then
      match parseFloat (if getF u.fields "currentState" = 1 then u.valueOn else u.valueOff) with
      | some parsedValue => [⟨u.targetId, [(u.targetProperty, parsedValue)]⟩]
      | none => []
    else []
  else [])

/-- Manual programming blocks triggered by a write to `u`
(`src/App.tsx:291-295`). -/
def manualTriggers (objects : List Obj) (u : Obj) : List String :=
  objects.filterMap (fun c =>
    if c.type = ShapeType.programming ∧ c.executionMode = ExecMode.manual ∧
        c.manualTriggerId = some u.id then
      some c.id
    else none)

/-- Set-like insertion used for the `processedIds` and `triggeredProgs` sets. -/
def insertUnique (l : List String) (x : String) : List String :=
  if x ∈ l then l else l ++ [x]

/-- The `findIndex` / `objects[shapeIndex] = updatedShape` pair
(`src/App.tsx:253-258`): merge the props into the first object with the
given id, returning the merged object and the updated store, or `none`
when the id is absent. -/
def applyAtFirst : List Obj → String → NumProps → Option (Obj × List Obj)
  | [], _, _ => none
  | o :: rest, i, props =>
    if o.id = i then some (mergeObj o props, mergeObj o props :: rest)
    else
      match applyAtFirst rest i props with
      | some p => some (p.1, o :: p.2)
      | none => none

/-- The breadth-first worklist loop of `updateShapeAndPropagate`
(`src/App.tsx:248-296`), fuel-indexed: `none` models the source looping
forever on a genuine dependency cycle.  Returns the settled store and the
set of manual programming blocks recorded for triggering. -/
def propagateLoop : Nat → List Obj → List Entry → List String → List String →
    Option (List Obj × List String)
  | 0, _, _, _, _ => none
  | _ + 1, objects, [], _, triggered => some (objects, triggered)
  | fuel + 1, objects, e :: rest, processed, triggered =>
    if e.id ∈ processed ∧ ¬(hasKey e.props "value" ∨ hasKey e.props "currentState") then
      propagateLoop fuel objects rest processed triggered
    else
      match applyAtFirst objects e.id e.props with
      | none => propagateLoop fuel objects rest processed triggered
      | some (u, objects1) =>
        propagateLoop fuel objects1 (rest ++ discover objects1 u e.props)
          (insertUnique processed e.id)
          ((manualTriggers objects1 u).foldl insertUnique triggered)

/-- Fuel bound used for concrete runs; every terminating traversal in this
file settles well within it. -/
def engineFuel : Nat := 100

/-- Entry point of the propagation engine: seed the worklist with the single
requested write and run to settlement. -/
def updateShapeAndPropagate (objects : List Obj) (shapeId : String) (props : NumProps) :
    Option (List Obj × List String) :=
  propagateLoop engineFuel objects [⟨shapeId, props⟩] [] []

/-- First object with the given id, as `objects.find` does. -/
def lookupObj (objects : List Obj) (i : String) : Option Obj :=
  objects.find? (fun o => o.id == i)

/-- Reads one numeric property of one object out of a settled engine result. -/
def resultProp (r : Option (List Obj × List String)) (i k : String) : Option ℚ :=
  match r with
  | some p =>
    match lookupObj p.1 i with
    | some o => some (getF o.fields k)
    | none => none
  | none => none

/-- Reads one whole object out of a settled engine result. -/
def resultObj (r : Option (List Obj × List String)) (i : String) : Option Obj :=
  match r with
  | some p => lookupObj p.1 i
  | none => none

/-! ## SequencedBlockExecutor (`executeProgrammingStep`, `src/App.tsx:206-237`)

The cooldown flag and the deferred delivery of the write are real-time
behaviour; the state transition modelled here is the body of the
`setExecutionState` updater, which runs when the block is not under
cooldown: advance the cursor and select the instruction write to issue. -/

/-- One executor step on a block's instruction list and cursor
(`currentOrdem`, `prevState[progId] || 0` when the block has no entry):
returns the persisted cursor and the property write issued, if any. -/
def executeProgrammingStep (linhas : List ProgrammingLine) (cursor : Nat) :
    Nat × Option (String × NumProps) :=
  if linhas.length = 0 then (cursor, none)
  else
    let nextOrdem := cursor % linhas.length + 1
    let write :=
      match linhas.find? (fun l => l.ordem == nextOrdem) with
      | some line =>
        if line.targetObjectId ≠ "" ∧ line.property ≠ "" then
          some (line.targetObjectId, [(line.property, line.value)])
        else none
      | none => none
    (nextOrdem, write)

/-- Cursor value after `k` successive executor steps starting from the
initial cursor 0 ("not yet started"). -/
def cursorIter (linhas : List ProgrammingLine) : Nat → Nat
  | 0 => 0
  | k + 1 => (executeProgrammingStep linhas (cursorIter linhas k)).1

/-! ## FirmataCodec (`processFirmataMessage` and `sendFirmataData`,
`src/App.tsx:377-407` and `src/App.tsx:499-548`) -/

/-- Pin modes of a bridge input mapping. -/
inductive InputMode
  | Analog
  | Digital
deriving DecidableEq, Repr

/-- A bridge input mapping.  `adcMax = 0` models an absent `adcMax`
(the decode path reads `mapping.adcMax || 1023`). -/
structure InputMapping where
  pin : Nat
  mode : InputMode
  targetId : String
  property : String
  min : ℚ
  max : ℚ
  adcBits : Nat
  adcMax : Nat
deriving DecidableEq, Repr

/-- Payload assembly of a 2-byte Firmata report:
`value = lsb | (msb << 7)` (`src/App.tsx:382`). -/
def assembleValue (lsb msb : Nat) : Nat := lsb ||| (msb <<< 7)

/-- Decode of an analog message for logical pin `pin`
(`src/App.tsx:384-394`): the first input mapping with `mode=Analog` on
absolute pin `pin+14`, if bound, receives the reading rescaled from
`[0, adcMax]` into `[min, max]`.  Returns the propagation writes issued. -/
def processAnalogMessage (inputs : List InputMapping) (pin lsb msb : Nat) :
    List (String × NumProps) :=
  match inputs.find? (fun m => decide (m.mode = InputMode.Analog ∧ m.pin = pin + 14)) with
  | some m =>
    if m.targetId ≠ "" ∧ m.property ≠ "" then
      let adcMax : Nat := if m.adcMax = 0 then 1023 else m.adcMax
      let range := m.max - m.min
      [(m.targetId, [(m.property, m.min + ((assembleValue lsb msb : ℚ) / (adcMax : ℚ)) * range)])]
    else []
  | none => []

/-- Decode of a digital message for port `portNum` (`src/App.tsx:395-406`):
for each bit `i` in 0..7, the first input mapping with `mode=Digital` on
absolute pin `portNum*8+i`, if bound, receives `max` when the bit is 1 and
`min` when it is 0.  Returns the propagation writes issued, in pin order. -/
def processDigitalMessage (inputs : List InputMapping) (portNum lsb msb : Nat) :
    List (String × NumProps) :=
  (List.range 8).filterMap (fun i =>
    let pin := portNum * 8 + i
    match inputs.find? (fun m => decide (m.mode = InputMode.Digital ∧ m.pin = pin)) with
    | some m =>
      if m.targetId ≠ "" ∧ m.property ≠ "" then
        let pinState := (assembleValue lsb msb >>> i) &&& 1
        some (m.targetId, [(m.property, if pinState = 1 then m.max else m.min)])
      else none
    | none => none)

/-- Firmata analog-message command byte base. -/
def ANALOG_MESSAGE : Nat := 0xE0

/-- Firmata digital-message command byte base. -/
def DIGITAL_MESSAGE : Nat := 0x90

/-- The PWM duty value of the output encoder (`src/App.tsx:521-525`):
rescale the source value from its declared `[sourceMin, sourceMax]` into
`[0,255]` (a zero range scaling to 0), clamp, and round. -/
def pwmValue (currentValue sourceMin sourceMax : ℚ) : Nat :=
  let range := sourceMax - sourceMin
  let scaledValue := if range = 0 then 0 else ((currentValue - sourceMin) / range) * 255
  (jsRound (max 0 (min 255 scaledValue))).toNat

/-- The 3-byte analog-message command written for a PWM output mapping
(`src/App.tsx:526`). -/
def encodePWMCommand (pin : Nat) (currentValue sourceMin sourceMax : ℚ) : List Nat :=
  [ANALOG_MESSAGE ||| pin,
   pwmValue currentValue sourceMin sourceMax &&& 0x7F,
   (pwmValue currentValue sourceMin sourceMax >>> 7) &&& 0x7F]

/-- The 3-byte digital-message command written for a digital output port
register (`src/App.tsx:540`). -/
def encodeDigitalCommand (portNumber portState : Nat) : List Nat :=
  [DIGITAL_MESSAGE ||| portNumber, portState &&& 0x7F, (portState >>> 7) &&& 0x7F]

/-! ## Field enumeration (`getTargetProperties`,
`src/components/PropertiesPanel.tsx:400-410`) -/

/-- A JS runtime value as seen by `typeof` in the enumeration. -/
inductive JsValue
  | num (q : ℚ)
  | str (s : String)
  | boolean (b : Bool)
  | objv
deriving DecidableEq, Repr

/-- A JS object as an ordered key/value record. -/
abbrev JsObject := List (String × JsValue)

/-- The `typeof v === number` test. -/
def JsValue.isNumber : JsValue → Bool
  | .num _ => true
  | _ => false

/-- UTF-16 code-unit comparison on which JS default `Array.sort` orders
strings (all keys here are basic-plane ASCII, where code units coincide
with the characters). -/
def charsLe : List Char → List Char → Bool
  | [], _ => true
  | _ :: _, [] => false
  | a :: as, b :: bs =>
    if a.toNat < b.toNat then true
    else if a.toNat = b.toNat then charsLe as bs else false

/-- String comparison used by the key sort. -/
def strLe (a b : String) : Bool := charsLe a.toList b.toList

/-- Insertion into a sorted key list. -/
def insertSorted (x : String) : List String → List String
  | [] => [x]
  | y :: ys => if strLe x y then x :: y :: ys else y :: insertSorted x ys

/-- The `.sort()` call at the end of the enumeration. -/
def sortKeys (l : List String) : List String := l.foldr insertSorted []

/-- The keys the enumeration refuses to offer even though they hold numbers. -/
def blacklistedKeys : List String := ["view", "movingAverageWindow"]

/-- The runtime field enumeration of `PropertiesPanel.tsx:400-410`: the keys
of the target object currently holding a number, minus the blacklist,
sorted. -/
def getTargetProperties (targetShape : Option JsObject) : List String :=
  match targetShape with
  | none => []
  | some o =>
    let numericKeys := (o.filter (fun kv => kv.2.isNumber)).map (fun kv => kv.1)
    sortKeys (numericKeys.filter (fun k => !(blacklistedKeys.contains k)))

/-! ## Deletion (`deleteShape`, `src/App.tsx:328-341`) and the per-object
state held by the dependent subsystems -/

/-- The application state relevant to deletion: the store plus the
ref-held side tables (`triggerCooldowns`, `firmataConnections`,
`digitalPortStates`, `lastSentOutputValues`) and the executor cursors
(`executionState`). -/
structure AppState where
  objects : List Obj
  selectedShapeId : Option String
  executionState : List (String × Nat)
  triggerCooldowns : List String
  firmataConnections : List String
  digitalPortStates : List (String × List Nat)
  lastSentOutputValues : List (String × ℚ)
deriving DecidableEq, Repr

/-- The deletion handler: it filters the object out of the store, clears
the selection when it pointed at the object, and drops the execution
cursor.  The cooldown flags, registered connections, digital port shadow
registers and last-sent output caches are not touched by it. -/
def deleteShape (s : AppState) (shapeId : String) : AppState :=
  { s with
    objects := s.objects.filter (fun o => !(o.id == shapeId)),
    selectedShapeId := if s.selectedShapeId = some shapeId then none else s.selectedShapeId,
    executionState := s.executionState.filter (fun kv => !(kv.1 == shapeId)) }

/-- The ids for which the timer-management effect (`src/App.tsx:311-325`)
keeps an interval timer alive: auto-mode programming blocks with at least
one instruction, recomputed from the current store. -/
def activeTimerIds (objects : List Obj) : List String :=
  (objects.filter (fun o =>
    decide (o.type = ShapeType.programming ∧ o.executionMode = ExecMode.auto ∧ o.linhas ≠ []))).map
    (fun o => o.id)

/-! ## Concrete fixtures used by counterexamples and witnesses -/

/-- A freshly-created slider (defaults of `addShape` in `src/App.tsx`)
whose binding points back at itself on property `x`. -/
def selfTargetSlider : Obj :=
  { baseObj "slider_1" ShapeType.slider with
    fields := [("view", 0), ("x", 250), ("y", 150), ("value", 0), ("min", 0), ("max", 500),
               ("movingAverageWindow", 10)],
    targetId := "slider_1", targetProperty := "x" }

/-- A freshly-created switch (defaults of `addShape` in `src/App.tsx`)
whose binding points back at itself on property `x`. -/
def selfTargetSwitch : Obj :=
  { baseObj "button_1" ShapeType.button with
    fields := [("view", 0), ("x", 250), ("y", 150), ("currentState", 0)],
    targetId := "button_1", targetProperty := "x", valueOn := "1", valueOff := "0" }

/-- Master slider of the slave-interference store: range `[0,10]`. -/
def interfM : Obj :=
  { baseObj "m" ShapeType.slider with
    fields := [("x", 0), ("y", 0), ("value", 0), ("min", 0), ("max", 10)] }

/-- First slave of the interference store: inherits from `m`, range `[0,100]`. -/
def interfL : Obj :=
  { baseObj "l" ShapeType.slider with
    fields := [("x", 0), ("y", 0), ("value", 0), ("min", 0), ("max", 100)],
    inheritedSliderId := some "m" }

/-- Second slave of the interference store: inherits from `m` with range
`[0,10]` and additionally targets `l.value`. -/
def interfL2 : Obj :=
  { baseObj "l2" ShapeType.slider with
    fields := [("x", 0), ("y", 0), ("value", 0), ("min", 0), ("max", 10)],
    inheritedSliderId := some "m", targetId := "l", targetProperty := "value" }

/-- Two-object store of a slider bound to a plain circle: the slider `s`
with the given value/range fields targeting property `p` of circle `t`. -/
def sliderToSinkStore (v0 lo hi tx ty td : ℚ) (p : String) : List Obj :=
  [{ baseObj "s" ShapeType.slider with
      fields := [("x", 0), ("y", 0), ("value", v0), ("min", lo), ("max", hi)],
      targetId := "t", targetProperty := p },
   { baseObj "t" ShapeType.circulo with
      fields := [("x", tx), ("y", ty), ("diametro", td)] }]

/-- Two-slider master/slave store with no other bindings. -/
def masterSlaveStore (v0m lom him v0l lol hil : ℚ) : List Obj :=
  [{ baseObj "m" ShapeType.slider with
      fields := [("x", 0), ("y", 0), ("value", v0m), ("min", lom), ("max", him)] },
   { baseObj "l" ShapeType.slider with
      fields := [("x", 0), ("y", 0), ("value", v0l), ("min", lol), ("max", hil)],
      inheritedSliderId := some "m" }]

/-- Switch-to-circle store: switch `b` with the given literals bound to
property `x` of circle `t`. -/
def switchToSinkStore (s0 : ℚ) (von voff : String) (tx : ℚ) : List Obj :=
  [{ baseObj "b" ShapeType.button with
      fields := [("x", 0), ("y", 0), ("currentState", s0)],
      targetId := "t", targetProperty := "x", valueOn := von, valueOff := voff },
   { baseObj "t" ShapeType.circulo with
      fields := [("x", tx), ("y", 0), ("diametro", 100)] }]

/-- Two-instruction block used as a concrete executor witness. -/
def twoLines : List ProgrammingLine :=
  [⟨"a", "x", 1, 1⟩, ⟨"a", "x", 2, 2⟩]

/-- Digital input mapping on one absolute pin, bound and with range `[10,20]`. -/
def digitalMappingOn (p : Nat) (target : String) : InputMapping :=
  { pin := p, mode := InputMode.Digital, targetId := target, property := "x",
    min := 10, max := 20, adcBits := 10, adcMax := 1023 }

/-- An 8-bit analog input mapping on absolute pin 14 over `[0, 255]`. -/
def eightBitMapping : InputMapping :=
  { pin := 14, mode := InputMode.Analog, targetId := "t", property := "x",
    min := 0, max := 255, adcBits := 8, adcMax := 255 }

/-- One digital input mapping per pin of port 1 (absolute pins 8..15). -/
def portOneMappings : List InputMapping :=
  [digitalMappingOn 8 "t8", digitalMappingOn 9 "t9", digitalMappingOn 10 "t10",
   digitalMappingOn 11 "t11", digitalMappingOn 12 "t12", digitalMappingOn 13 "t13",
   digitalMappingOn 14 "t14", digitalMappingOn 15 "t15"]

/-- The freshly-created slider as the JS object the field enumeration walks
(defaults of `addShape` in `src/App.tsx:133-147`). -/
def sliderJsObject : JsObject :=
  [("id", JsValue.str "slider_1"), ("type", JsValue.str "slider"),
   ("nome", JsValue.str "Novo Slider"), ("view", JsValue.num 0),
   ("x", JsValue.num 250), ("y", JsValue.num 150), ("value", JsValue.num 0),
   ("targetId", JsValue.str ""), ("targetProperty", JsValue.str ""),
   ("min", JsValue.num 0), ("max", JsValue.num 500), ("inheritedSliderId", JsValue.objv),
   ("useMovingAverage", JsValue.boolean false), ("movingAverageWindow", JsValue.num 10),
   ("showLabel", JsValue.boolean true)]

/-- A manual programming block with one instruction, used by `richState`. -/
def richProg : Obj :=
  { baseObj "p" ShapeType.programming with
    executionMode := ExecMode.manual, linhas := [⟨"f", "x", 1, 1⟩] }

/-- An application state holding a cooldown flag, an open connection, a
shadow register and a cached last-sent value for its two objects. -/
def richState : AppState :=
  { objects := [richProg, baseObj "f" ShapeType.firmata],
    selectedShapeId := some "p",
    executionState := [("p", 2)],
    triggerCooldowns := ["p"],
    firmataConnections := ["f"],
    digitalPortStates := [("f", [0, 5])],
    lastSentOutputValues := [("f-0", 42)] }

/-! ## General lemmas about the embedding -/

@[simp]
theorem mergeObj_id (o : Obj) (props : NumProps) : (mergeObj o props).id = o.id := rfl

@[simp]
theorem mergeObj_type (o : Obj) (props : NumProps) : (mergeObj o props).type = o.type := rfl

@[simp]
theorem mergeObj_targetId (o : Obj) (props : NumProps) :
    (mergeObj o props).targetId = o.targetId := rfl

@[simp]
theorem mergeObj_targetProperty (o : Obj) (props : NumProps) :
    (mergeObj o props).targetProperty = o.targetProperty := rfl

@[simp]
theorem mergeObj_inheritedSliderId (o : Obj) (props : NumProps) :
    (mergeObj o props).inheritedSliderId = o.inheritedSliderId := rfl

@[simp]
theorem mergeObj_valueOn (o : Obj) (props : NumProps) : (mergeObj o props).valueOn = o.valueOn :=
  rfl

@[simp]
theorem mergeObj_valueOff (o : Obj) (props : NumProps) :
    (mergeObj o props).valueOff = o.valueOff := rfl

@[simp]
theorem mergeObj_executionMode (o : Obj) (props : NumProps) :
    (mergeObj o props).executionMode = o.executionMode := rfl

@[simp]
theorem mergeObj_manualTriggerId (o : Obj) (props : NumProps) :
    (mergeObj o props).manualTriggerId = o.manualTriggerId := rfl

@[simp]
theorem mergeObj_linhas (o : Obj) (props : NumProps) : (mergeObj o props).linhas = o.linhas := rfl

@[simp]
theorem mergeObj_fields (o : Obj) (props : NumProps) :
    (mergeObj o props).fields = mergeF o.fields props := rfl

/-- Finding a key after an in-place overwrite yields the new binding. -/
theorem find?_map_overwrite (fields : NumProps) (k : String) (v : ℚ)
    (h : fields.any (fun kv => kv.1 == k) = true) :
    (fields.map (fun kv => if kv.1 == k then (k, v) else kv)).find?
      (fun kv => kv.1 == k) = some (k, v) := by
  induction fields with
  | nil => simp at h
  | cons kv rest ih =>
    by_cases hk : kv.1 = k
    · rw [List.map_cons, List.find?_cons_of_pos _ (by simp [hk])]
      simp [hk]
    · have h' : rest.any (fun kv => kv.1 == k) = true := by
        simpa [List.any_cons, hk] using h
      rw [List.map_cons, if_neg (by simpa using hk),
        List.find?_cons_of_neg _ (by simpa using hk)]
      exact ih h'

/-- Finding a key after appending its first binding yields that binding. -/
theorem find?_append_new (fields : NumProps) (k : String) (v : ℚ)
    (h : fields.any (fun kv => kv.1 == k) = false) :
    (fields ++ [(k, v)]).find? (fun kv => kv.1 == k) = some (k, v) := by
  induction fields with
  | nil => simp
  | cons kv rest ih =>
    have hk : ¬(kv.1 = k) := by
      intro he
      simp [List.any_cons, he] at h
    have h' : rest.any (fun kv => kv.1 == k) = false := by
      simpa [List.any_cons, hk] using h
    rw [List.cons_append, List.find?_cons_of_neg _ (by simpa using hk)]
    exact ih h'

/-- Reading a key back after writing it yields the written value. -/
@[simp]
theorem getF_setF_self (fields : NumProps) (k : String) (v : ℚ) :
    getF (setF fields k v) k = v := by
  unfold setF
  by_cases h : fields.any (fun kv => kv.1 == k) = true
  · rw [if_pos h, getF, find?_map_overwrite fields k v h]
  · rw [if_neg h, getF, find?_append_new fields k v (by simpa only [Bool.not_eq_true] using h)]

/-- Writing a single-key props record is one field write. -/
@[simp]
theorem mergeF_single (fields : NumProps) (k : String) (v : ℚ) :
    mergeF fields [(k, v)] = setF fields k v := rfl

/-- Membership is preserved by sorted insertion. -/
theorem mem_insertSorted (a x : String) (l : List String) :
    a ∈ insertSorted x l ↔ a = x ∨ a ∈ l := by
  induction l with
  | nil => simp [insertSorted]
  | cons y ys ih =>
    simp only [insertSorted]
    split
    · simp
    · simp only [List.mem_cons, ih]
      tauto

/-- Membership is preserved by the key sort. -/
theorem mem_sortKeys (a : String) (l : List String) : a ∈ sortKeys l ↔ a ∈ l := by
  induction l with
  | nil => simp [sortKeys]
  | cons y ys ih =>
    simp only [sortKeys, List.foldr] at ih ⊢
    rw [mem_insertSorted]
    simp [ih]

/-- A key deleted from a string-keyed association list cannot be found. -/
theorem find?_of_filter_ne {β : Type} (l : List (String × β)) (i : String) :
    (l.filter (fun kv => !(kv.1 == i))).find? (fun kv => kv.1 == i) = none := by
  induction l with
  | nil => simp
  | cons kv rest ih =>
    by_cases h : kv.1 = i
    · rw [List.filter_cons, if_neg (by simp [h])]
      exact ih
    · rw [List.filter_cons, if_pos (by simp [h]), List.find?_cons_of_neg _ (by simp [h])]
      exact ih

/-- Reassembling the two 7-bit halves of a byte restores it. -/
theorem assemble_split : ∀ n < 256, assembleValue (n &&& 127) ((n >>> 7) &&& 127) = n := by
  set_option maxRecDepth 4000 in decide

/-- The clamped scale value the encoder rounds. -/
def clampedScale (v mn mx : ℚ) : ℚ :=
  max 0 (min 255 (if mx - mn = 0 then 0 else ((v - mn) / (mx - mn)) * 255))

theorem pwmValue_eq_round_clamped (v mn mx : ℚ) :
    pwmValue v mn mx = (jsRound (clampedScale v mn mx)).toNat := rfl

/-- A rounded clamped PWM duty value never exceeds 255. -/
theorem pwmValue_le_255 (v mn mx : ℚ) : pwmValue v mn mx ≤ 255 := by
  rw [pwmValue_eq_round_clamped]
  have h1 : clampedScale v mn mx ≤ 255 := max_le (by norm_num) (min_le_left _ _)
  have h2 : jsRound (clampedScale v mn mx) < 256 := by
    rw [jsRound, Int.floor_lt]
    push_cast
    linarith
  exact Int.toNat_le.mpr (by omega)

/-- The persisted cursor of a step on a nonempty block is
`currentOrder mod N + 1`, whether or not an instruction write was issued. -/
theorem executeProgrammingStep_fst (linhas : List ProgrammingLine) (cursor : Nat)
    (hne : linhas ≠ []) :
    (executeProgrammingStep linhas cursor).1 = cursor % linhas.length + 1 := by
  rw [executeProgrammingStep, if_neg (by simpa using hne)]

/-- Starting from cursor 0, the cursor after `k ≤ N` steps is exactly `k`. -/
theorem cursorIter_eq_self (linhas : List ProgrammingLine) (hne : linhas ≠ []) :
    ∀ k, k ≤ linhas.length → cursorIter linhas k = k := by
  intro k
  induction k with
  | zero => intro _; rfl
  | succ k ih =>
    intro hk
    rw [cursorIter, executeProgrammingStep_fst _ _ hne, ih (Nat.le_of_succ_le hk),
      Nat.mod_eq_of_lt (Nat.lt_of_succ_le hk)]

/-- Reading the head key of a field record. -/
@[simp]
theorem getF_cons_self (k : String) (v : ℚ) (rest : NumProps) :
    getF ((k, v) :: rest) k = v := by
  rw [getF, List.find?_cons_of_pos _ (by simp)]

/-- Reading past a head binding with a different key. -/
@[simp]
theorem getF_cons_of_ne (k' k : String) (v : ℚ) (rest : NumProps) (h : ¬(k' = k)) :
    getF ((k', v) :: rest) k = getF rest k := by
  rw [getF, List.find?_cons_of_neg _ (by simpa using h), getF]

/-- An in-place overwrite of one key leaves lookups of other keys alone. -/
theorem find?_map_overwrite_of_ne (fields : NumProps) (k : String) (v : ℚ) (k' : String)
    (h : ¬(k' = k)) :
    (fields.map (fun kv => if kv.1 == k then (k, v) else kv)).find? (fun kv => kv.1 == k')
      = fields.find? (fun kv => kv.1 == k') := by
  induction fields with
  | nil => rfl
  | cons kv rest ih =>
    by_cases hk : kv.1 = k
    · rw [List.map_cons, if_pos (by simpa using hk),
        List.find?_cons_of_neg _ (by simpa using fun he : k = k' => h he.symm),
        List.find?_cons_of_neg _ (by simp [hk]; exact fun he => h he.symm)]
      exact ih
    · rw [List.map_cons, if_neg (by simpa using hk)]
      by_cases hk' : kv.1 = k'
      · rw [List.find?_cons_of_pos _ (by simpa using hk'),
          List.find?_cons_of_pos _ (by simpa using hk')]
      · rw [List.find?_cons_of_neg _ (by simpa using hk'),
          List.find?_cons_of_neg _ (by simpa using hk')]
        exact ih

/-- Appending a fresh binding of one key leaves lookups of other keys alone. -/
theorem find?_append_single_of_ne (fields : NumProps) (k : String) (v : ℚ) (k' : String)
    (h : ¬(k' = k)) :
    (fields ++ [(k, v)]).find? (fun kv => kv.1 == k') = fields.find? (fun kv => kv.1 == k') := by
  induction fields with
  | nil =>
    rw [List.nil_append, List.find?_cons_of_neg _ (by simpa using fun he : k = k' => h he.symm)]
  | cons kv rest ih =>
    by_cases hk' : kv.1 = k'
    · rw [List.cons_append, List.find?_cons_of_pos _ (by simpa using hk'),
        List.find?_cons_of_pos _ (by simpa using hk')]
    · rw [List.cons_append, List.find?_cons_of_neg _ (by simpa using hk'),
        List.find?_cons_of_neg _ (by simpa using hk')]
      exact ih

/-- Writing one key does not change the value read under another key. -/
@[simp]
theorem getF_setF_ne (fields : NumProps) (k : String) (v : ℚ) (k' : String) (h : ¬(k' = k)) :
    getF (setF fields k v) k' = getF fields k' := by
  unfold setF
  by_cases hany : fields.any (fun kv => kv.1 == k) = true
  · rw [if_pos hany, getF, find?_map_overwrite_of_ne fields k v k' h, getF]
  · rw [if_neg hany, getF, find?_append_single_of_ne fields k v k' h, getF]

/-- Digit value evaluations used to run `parseFloat` on concrete literals. -/
theorem digitVal_zero : digitVal '0' = some 0 := by decide

theorem digitVal_one : digitVal '1' = some 1 := by decide

theorem digitVal_la : digitVal 'a' = none := by decide

theorem digitVal_lb : digitVal 'b' = none := by decide

theorem digitVal_lc : digitVal 'c' = none := by decide

/-- On an in-range input with a positive range, the clamp is the identity
on the rescaled value. -/
theorem clampedScale_eq (x mn mx : ℚ) (hlt : mn < mx) (h1 : mn ≤ x) (h2 : x ≤ mx) :
    clampedScale x mn mx = (x - mn) / (mx - mn) * 255 := by
  have hne : mx - mn ≠ 0 := sub_ne_zero.mpr (ne_of_gt hlt)
  have hpos : (0 : ℚ) < mx - mn := sub_pos.mpr hlt
  have h0 : 0 ≤ (x - mn) / (mx - mn) * 255 :=
    mul_nonneg (div_nonneg (by linarith) hpos.le) (by norm_num)
  have h255 : (x - mn) / (mx - mn) * 255 ≤ 255 := by
    have hle1 : (x - mn) / (mx - mn) ≤ 1 := (div_le_one hpos).mpr (by linarith)
    calc (x - mn) / (mx - mn) * 255 ≤ 1 * 255 :=
          mul_le_mul_of_nonneg_right hle1 (by norm_num)
      _ = 255 := one_mul 255
  rw [clampedScale, if_neg hne, min_eq_right h255, max_eq_right h0]

/-- The round-trip error of encoding an in-range value as a PWM duty and
reading it back through the matching analog rescale is at most one
scaling-rounding unit `(mx - mn)/255`. -/
theorem pwm_roundtrip_error (x mn mx : ℚ) (h1 : mn ≤ x) (h2 : x ≤ mx) :
    |mn + ((pwmValue x mn mx : ℚ) / 255) * (mx - mn) - x| ≤ (mx - mn) / 255 := by
  rcases lt_or_eq_of_le (h1.trans h2) with hlt | heq
  · have hne : mx - mn ≠ 0 := sub_ne_zero.mpr (ne_of_gt hlt)
    have hpos : (0 : ℚ) < mx - mn := sub_pos.mpr hlt
    have hcs : clampedScale x mn mx = (x - mn) / (mx - mn) * 255 :=
      clampedScale_eq x mn mx hlt h1 h2
    have hs0 : 0 ≤ (x - mn) / (mx - mn) * 255 :=
      mul_nonneg (div_nonneg (by linarith) hpos.le) (by norm_num)
    have hjnn : 0 ≤ jsRound ((x - mn) / (mx - mn) * 255) := by
      rw [jsRound]
      exact Int.le_floor.mpr (by push_cast; linarith)
    have hjhi : (jsRound ((x - mn) / (mx - mn) * 255) : ℚ) ≤
        (x - mn) / (mx - mn) * 255 + 1 / 2 := by
      rw [jsRound]
      exact Int.floor_le _
    have hjlo : (x - mn) / (mx - mn) * 255 - 1 / 2 <
        (jsRound ((x - mn) / (mx - mn) * 255) : ℚ) := by
      rw [jsRound]
      have := Int.lt_floor_add_one ((x - mn) / (mx - mn) * 255 + 1 / 2)
      linarith
    have hcast : ((pwmValue x mn mx : ℚ)) = (jsRound ((x - mn) / (mx - mn) * 255) : ℚ) := by
      rw [pwmValue_eq_round_clamped, hcs]
      exact_mod_cast Int.toNat_of_nonneg hjnn
    have hx : x = mn + (x - mn) / (mx - mn) * 255 / 255 * (mx - mn) := by
      field_simp
      ring
    rw [hcast, abs_le]
    constructor
    · nlinarith [hjlo, hpos]
    · nlinarith [hjhi, hpos]
  · have hx : x = mn := le_antisymm (heq ▸ h2) h1
    have hzero : pwmValue x mn mx = 0 := by
      rw [pwmValue_eq_round_clamped, clampedScale, if_pos (sub_eq_zero.mpr heq.symm)]
      have : max (0 : ℚ) (min 255 0) = 0 := by norm_num
      rw [this]
      have hfl : jsRound (0 : ℚ) = 0 := by
        rw [jsRound]
        rw [Int.floor_eq_zero_iff]
        constructor <;> norm_num
      rw [hfl]
      rfl
    rw [hzero, hx, ← heq]
    norm_num

/-! ## Claim theorems -/

/-- Claim C3: in the worklist loop, a popped entry whose id is already in
the visited set is skipped — the store, the remaining worklist and the
recorded triggers continue unchanged — unless its pending properties
contain a `value` or `currentState` key, in which case the entry is merged
into the store and dependency discovery runs again for it. -/
theorem c3_visited_set_exemption (fuel : Nat) (objects : List Obj) (e : Entry)
    (rest : List Entry) (processed triggered : List String) :
    (e.id ∈ processed → hasKey e.props "value" = false → hasKey e.props "currentState" = false →
      propagateLoop (fuel + 1) objects (e :: rest) processed triggered =
        propagateLoop fuel objects rest processed triggered) ∧
    (e.id ∈ processed → (hasKey e.props "value" = true ∨ hasKey e.props "currentState" = true) →
      ∀ u objects1, applyAtFirst objects e.id e.props = some (u, objects1) →
        propagateLoop (fuel + 1) objects (e :: rest) processed triggered =
          propagateLoop fuel objects1 (rest ++ discover objects1 u e.props)
            (insertUnique processed e.id)
            ((manualTriggers objects1 u).foldl insertUnique triggered)) := by
  constructor
  · intro h1 h2 h3
    rw [propagateLoop, if_pos ⟨h1, by simp [h2, h3]⟩]
  · intro _ hex u objects1 ha
    rw [propagateLoop, if_neg (fun hcon => hcon.2 (by simpa using hex)), ha]

/-- Witness for C3: a plain circle already visited — a positional write is
skipped, while a `value` write is merged and re-fires discovery. -/
theorem c3_visited_set_exemption_witness :
    propagateLoop 4 [baseObj "a" ShapeType.circulo] [⟨"a", [("x", 1)]⟩] ["a"] [] =
      propagateLoop 3 [baseObj "a" ShapeType.circulo] [] ["a"] [] ∧
    propagateLoop 4 [baseObj "a" ShapeType.circulo] [⟨"a", [("value", 1)]⟩] ["a"] [] =
      propagateLoop 3 [mergeObj (baseObj "a" ShapeType.circulo) [("value", 1)]]
        ([] ++ discover [mergeObj (baseObj "a" ShapeType.circulo) [("value", 1)]]
          (mergeObj (baseObj "a" ShapeType.circulo) [("value", 1)]) [("value", 1)])
        (insertUnique ["a"] "a")
        ((manualTriggers [mergeObj (baseObj "a" ShapeType.circulo) [("value", 1)]]
          (mergeObj (baseObj "a" ShapeType.circulo) [("value", 1)])).foldl insertUnique []) := by
  constructor
  · exact (c3_visited_set_exemption 3 _ _ _ _ _).1 (by decide) (by decide) (by decide)
  · exact (c3_visited_set_exemption 3 _ _ _ _ _).2 (by decide) (Or.inl (by decide)) _ _
      (by decide)

/-- Counterexample to C1 as stated: a freshly-created slider whose binding
names itself (an existing object) on its property `x`.  After
`apply(S.id, {value: 7})` settles, the target property reads its old value
250, not 7 — the enqueued target write is discarded by the visited-set
check because `x` is neither `value` nor `currentState`. -/
theorem c1_counterexample :
    resultProp (updateShapeAndPropagate [selfTargetSlider] "slider_1" [("value", 7)])
      "slider_1" "x" = some 250 ∧ (250 : ℚ) ≠ 7 := by
  decide

/-- Claim C1 (amended): for a store of a slider `S` bound to a distinct
pure-sink object `T` (a plain shape, with no slider inheriting from `S`),
after `apply(S.id, {value: v})` settles, `T`'s bound property `P` equals
`v` — for every value `v`, every initial field state and every property
name `P`. -/
theorem c1_slider_target_write (v v0 lo hi tx ty td : ℚ) (p : String) (hp : p ≠ "") :
    resultProp (updateShapeAndPropagate (sliderToSinkStore v0 lo hi tx ty td p) "s"
      [("value", v)]) "t" p = some v := by
  simp [resultProp, updateShapeAndPropagate, engineFuel, propagateLoop, applyAtFirst,
    discover, slaveEntries, manualTriggers, hasKey, insertUnique, lookupObj,
    sliderToSinkStore, baseObj, hp]

/-- Witness for C1 (amended) at a concrete property name. -/
theorem c1_slider_target_write_witness :
    resultProp (updateShapeAndPropagate (sliderToSinkStore 0 0 500 0 0 100 "diametro") "s"
      [("value", 7)]) "t" "diametro" = some 7 :=
  c1_slider_target_write 7 0 0 500 0 0 100 "diametro" (by decide)

/-- Counterexample to C2 as stated: master `m` over `[0,10]` with two
slaves; slave `l2` additionally targets `l.value`.  After
`apply(m.id, {value: 5})` settles, `l.value` is 5 (overwritten by `l2`'s
target write, exempt from the visited check), while the claimed formula
gives `0 + ((5-0)/(10-0))*(100-0) = 50`. -/
theorem c2_counterexample :
    resultProp (updateShapeAndPropagate [interfM, interfL, interfL2] "m" [("value", 5)])
      "l" "value" = some 5 ∧
    (0 : ℚ) + ((5 - 0) / (10 - 0)) * (100 - 0) = 50 ∧ (5 : ℚ) ≠ 50 := by
  refine ⟨?_, by norm_num, by norm_num⟩
  have h1 : ¬((10 : ℚ) - 0 = 0) := by norm_num
  have e1 : (0 : ℚ) + (5 - 0) / (10 - 0) * (100 - 0) = 50 := by norm_num
  have e2 : (0 : ℚ) + (5 - 0) / (10 - 0) * (10 - 0) = 5 := by norm_num
  have ne1 : ¬((0 : ℚ) = 50) := by norm_num
  have ne2 : ¬((0 : ℚ) = 5) := by norm_num
  simp [resultProp, updateShapeAndPropagate, engineFuel, propagateLoop, applyAtFirst,
    mergeObj, mergeF, setF, getF, hasKey, discover, slaveEntries, slaveValue, manualTriggers,
    insertUnique, lookupObj, interfM, interfL, interfL2, baseObj, List.find?,
    h1, e1, e2, ne1, ne2]

/-- Claim C2 (amended): for a store of master `M` and a single slave `L`
with no further bindings, after `apply(M.id, {value: v})` settles,
`L.value = L.min + ((v - M.min)/(M.max - M.min))*(L.max - L.min)`, and
`L.value = L.min` when the master range is zero; moreover when the
computed value already equals `L.value`, no slave update is enqueued and
the slave object is left entirely untouched. -/
theorem c2_master_slave_inheritance (v v0m lom him v0l lol hil : ℚ) :
    resultProp (updateShapeAndPropagate (masterSlaveStore v0m lom him v0l lol hil) "m"
      [("value", v)]) "l" "value" =
      some (if him - lom = 0 then lol else lol + ((v - lom) / (him - lom)) * (hil - lol)) ∧
    (v0l = (if him - lom = 0 then lol else lol + ((v - lom) / (him - lom)) * (hil - lol)) →
      resultObj (updateShapeAndPropagate (masterSlaveStore v0m lom him v0l lol hil) "m"
        [("value", v)]) "l" =
      some { baseObj "l" ShapeType.slider with
        fields := [("x", 0), ("y", 0), ("value", v0l), ("min", lol), ("max", hil)],
        inheritedSliderId := some "m" }) := by
  by_cases hr : him - lom = 0
  · by_cases hv : v0l = lol
    · constructor
      · simp [resultProp, updateShapeAndPropagate, engineFuel, propagateLoop, applyAtFirst,
          discover, slaveEntries, slaveValue, manualTriggers, hasKey, insertUnique, lookupObj,
          masterSlaveStore, baseObj, hr, hv]
      · intro _
        simp [resultObj, updateShapeAndPropagate, engineFuel, propagateLoop, applyAtFirst,
          discover, slaveEntries, slaveValue, manualTriggers, hasKey, insertUnique, lookupObj,
          masterSlaveStore, baseObj, hr, hv]
    · constructor
      · simp [resultProp, updateShapeAndPropagate, engineFuel, propagateLoop, applyAtFirst,
          discover, slaveEntries, slaveValue, manualTriggers, hasKey, insertUnique, lookupObj,
          masterSlaveStore, baseObj, hr, hv]
      · intro hcon
        rw [if_pos hr] at hcon
        exact absurd hcon hv
  · by_cases hv : v0l = lol + ((v - lom) / (him - lom)) * (hil - lol)
    · constructor
      · simp [resultProp, updateShapeAndPropagate, engineFuel, propagateLoop, applyAtFirst,
          discover, slaveEntries, slaveValue, manualTriggers, hasKey, insertUnique, lookupObj,
          masterSlaveStore, baseObj, hr, hv]
      · intro _
        simp [resultObj, updateShapeAndPropagate, engineFuel, propagateLoop, applyAtFirst,
          discover, slaveEntries, slaveValue, manualTriggers, hasKey, insertUnique, lookupObj,
          masterSlaveStore, baseObj, hr, hv]
    · constructor
      · simp [resultProp, updateShapeAndPropagate, engineFuel, propagateLoop, applyAtFirst,
          discover, slaveEntries, slaveValue, manualTriggers, hasKey, insertUnique, lookupObj,
          masterSlaveStore, baseObj, hr, hv]
      · intro hcon
        rw [if_neg hr] at hcon
        exact absurd hcon hv

/-- Witness for C2 (amended): master `[0,10]` at `v = 5`, slave `[0,100]`
already holding the computed value 50 — the value equation holds and the
slave object is untouched. -/
theorem c2_master_slave_inheritance_witness :
    resultProp (updateShapeAndPropagate (masterSlaveStore 0 0 10 50 0 100) "m"
      [("value", 5)]) "l" "value" = some 50 ∧
    resultObj (updateShapeAndPropagate (masterSlaveStore 0 0 10 50 0 100) "m"
      [("value", 5)]) "l" =
      some { baseObj "l" ShapeType.slider with
        fields := [("x", 0), ("y", 0), ("value", 50), ("min", 0), ("max", 100)],
        inheritedSliderId := some "m" } := by
  have h := c2_master_slave_inheritance 5 0 0 10 50 0 100
  have h1 := h.1
  have h2 := h.2 (by norm_num)
  norm_num at h1
  exact ⟨h1, h2⟩

/-- Counterexample to C4 as stated: a freshly-created switch whose binding
names itself (an existing object) on its property `x`, with the parseable
literal `valueOn = "1"`.  After `apply({currentState: 1})` settles, the
target property reads its old value 250, not the parsed 1 — the enqueued
target write is discarded by the visited-set check because `x` is neither
`value` nor `currentState`. -/
theorem c4_counterexample :
    resultProp (updateShapeAndPropagate [selfTargetSwitch] "button_1" [("currentState", 1)])
      "button_1" "x" = some 250 ∧ (250 : ℚ) ≠ 1 := by
  have hp : parseFloat "1" = some 1 := by
    norm_num +decide [parseFloat, takeDigits, natOfDigits, digitVal_one]
  refine ⟨?_, by norm_num⟩
  simp [resultProp, updateShapeAndPropagate, engineFuel, propagateLoop, applyAtFirst,
    discover, slaveEntries, manualTriggers, hasKey, insertUnique, lookupObj,
    selfTargetSwitch, baseObj, hp]

/-- Claim C4 (amended): a switch bound to a distinct pure-sink target
object, written with `{currentState: s}`, propagates the number parsed
from `valueOn` when `s = 1` and from `valueOff` otherwise to the target's
property; when the chosen literal does not parse as a number, the write is
dropped: the target keeps its value, the switch itself still records `s`,
and no error is surfaced (the engine result is a settled store either
way). -/
theorem c4_switch_literal_propagation (s s0 tx : ℚ) (von voff : String) :
    (∀ pv : ℚ, parseFloat (if s = 1 then von else voff) = some pv →
      resultProp (updateShapeAndPropagate (switchToSinkStore s0 von voff tx) "b"
        [("currentState", s)]) "t" "x" = some pv) ∧
    (parseFloat (if s = 1 then von else voff) = none →
      resultProp (updateShapeAndPropagate (switchToSinkStore s0 von voff tx) "b"
        [("currentState", s)]) "t" "x" = some tx ∧
      resultProp (updateShapeAndPropagate (switchToSinkStore s0 von voff tx) "b"
        [("currentState", s)]) "b" "currentState" = some s) := by
  constructor
  · intro pv hp
    simp [resultProp, updateShapeAndPropagate, engineFuel, propagateLoop, applyAtFirst,
      discover, slaveEntries, manualTriggers, hasKey, insertUnique, lookupObj,
      switchToSinkStore, baseObj, hp]
  · intro hp
    constructor
    · simp [resultProp, updateShapeAndPropagate, engineFuel, propagateLoop, applyAtFirst,
        discover, slaveEntries, manualTriggers, hasKey, insertUnique, lookupObj,
        switchToSinkStore, baseObj, hp]
    · simp [resultProp, updateShapeAndPropagate, engineFuel, propagateLoop, applyAtFirst,
        discover, slaveEntries, manualTriggers, hasKey, insertUnique, lookupObj,
        switchToSinkStore, baseObj, hp]

/-- Witness for C4: literals `valueOn = "1"`, `valueOff = "0"` parse and
propagate (state 1 delivers 1), while `valueOff = "abc"` is dropped with
the target untouched. -/
theorem c4_switch_literal_propagation_witness :
    resultProp (updateShapeAndPropagate (switchToSinkStore 0 "1" "0" 77) "b"
      [("currentState", 1)]) "t" "x" = some 1 ∧
    resultProp (updateShapeAndPropagate (switchToSinkStore 0 "1" "abc" 77) "b"
      [("currentState", 0)]) "t" "x" = some 77 ∧
    resultProp (updateShapeAndPropagate (switchToSinkStore 0 "1" "abc" 77) "b"
      [("currentState", 0)]) "b" "currentState" = some 0 := by
  refine ⟨(c4_switch_literal_propagation 1 0 77 "1" "0").1 1 ?_,
    ((c4_switch_literal_propagation 0 0 77 "1" "abc").2 ?_).1,
    ((c4_switch_literal_propagation 0 0 77 "1" "abc").2 ?_).2⟩
  · norm_num +decide [parseFloat, takeDigits, natOfDigits, digitVal_zero, digitVal_one,
      digitVal_la, digitVal_lb, digitVal_lc]
  · norm_num +decide [parseFloat, takeDigits, natOfDigits, digitVal_zero, digitVal_one,
      digitVal_la, digitVal_lb, digitVal_lc]
  · norm_num +decide [parseFloat, takeDigits, natOfDigits, digitVal_zero, digitVal_one,
      digitVal_la, digitVal_lb, digitVal_lc]

/-- Claim C5: for an instruction block with `N ≥ 1` instructions the
executor computes `nextOrder = (currentOrder mod N) + 1` with cursor
initially 0, so the `k`-th of `N` successive steps lands on order `k`
(each order visited exactly once) and the `(N+1)`-th step revisits order 1;
a step on an empty instruction list is a no-op; and the advanced cursor is
persisted whether or not an instruction write was issued. -/
theorem c5_sequencer_round_robin (linhas : List ProgrammingLine) (hne : linhas ≠ []) :
    (∀ k, 1 ≤ k → k ≤ linhas.length → cursorIter linhas k = k) ∧
    cursorIter linhas (linhas.length + 1) = 1 ∧
    (∀ cursor, executeProgrammingStep [] cursor = (cursor, none)) ∧
    (∀ cursor, (executeProgrammingStep linhas cursor).1 = cursor % linhas.length + 1) := by
  have hN : 0 < linhas.length := List.length_pos.mpr hne
  refine ⟨fun k _ hk => cursorIter_eq_self linhas hne k hk, ?_, fun cursor => rfl,
    fun cursor => executeProgrammingStep_fst linhas cursor hne⟩
  rw [cursorIter, executeProgrammingStep_fst _ _ hne,
    cursorIter_eq_self linhas hne linhas.length le_rfl, Nat.mod_self]

/-- Witness for C5 at the concrete two-instruction block. -/
theorem c5_sequencer_round_robin_witness :
    cursorIter twoLines 1 = 1 ∧ cursorIter twoLines 2 = 2 ∧ cursorIter twoLines 3 = 1 :=
  ⟨(c5_sequencer_round_robin twoLines (by decide)).1 1 (by decide) (by decide),
   (c5_sequencer_round_robin twoLines (by decide)).1 2 (by decide) (by decide),
   (c5_sequencer_round_robin twoLines (by decide)).2.1⟩

/-- Claim C10: both per-tick output commands are one command byte followed
by exactly two payload bytes, each strictly below `0x80` thanks to the
`0x7F` masks, for every source value and port register; and the rounded
PWM duty value is clamped into `[0,255]`. -/
theorem c10_commands_are_seven_bit (pin portNumber portState : Nat) (v mn mx : ℚ) :
    encodePWMCommand pin v mn mx =
      [ANALOG_MESSAGE ||| pin, pwmValue v mn mx &&& 0x7F, (pwmValue v mn mx >>> 7) &&& 0x7F] ∧
    (encodePWMCommand pin v mn mx).length = 3 ∧
    pwmValue v mn mx &&& 0x7F < 0x80 ∧
    (pwmValue v mn mx >>> 7) &&& 0x7F < 0x80 ∧
    pwmValue v mn mx ≤ 255 ∧
    encodeDigitalCommand portNumber portState =
      [DIGITAL_MESSAGE ||| portNumber, portState &&& 0x7F, (portState >>> 7) &&& 0x7F] ∧
    (encodeDigitalCommand portNumber portState).length = 3 ∧
    portState &&& 0x7F < 0x80 ∧
    (portState >>> 7) &&& 0x7F < 0x80 :=
  ⟨rfl, rfl,
   Nat.lt_of_le_of_lt Nat.and_le_right (by norm_num),
   Nat.lt_of_le_of_lt Nat.and_le_right (by norm_num),
   pwmValue_le_255 v mn mx, rfl, rfl,
   Nat.lt_of_le_of_lt Nat.and_le_right (by norm_num),
   Nat.lt_of_le_of_lt Nat.and_le_right (by norm_num)⟩

/-- Claim C6: decoding a digital-port report assembles
`value = lsb | (msb << 7)` and, for each bit `i` in 0..7, the bound Digital
input mapping found on absolute pin `portNum*8+i` receives `max` when bit
`i` of the value is 1 and `min` when it is 0. -/
theorem c6_digital_port_decode (inputs : List InputMapping) (portNum lsb msb i : Nat)
    (m : InputMapping) (hi : i < 8)
    (hfind : inputs.find?
      (fun mp => decide (mp.mode = InputMode.Digital ∧ mp.pin = portNum * 8 + i)) = some m)
    (ht : m.targetId ≠ "") (hp : m.property ≠ "") :
    (m.targetId, [(m.property,
      if (assembleValue lsb msb >>> i) &&& 1 = 1 then m.max else m.min)])
      ∈ processDigitalMessage inputs portNum lsb msb := by
  unfold processDigitalMessage
  refine List.mem_filterMap.mpr ⟨i, by simpa using hi, ?_⟩
  simp only [hfind, ht, hp, ne_eq, not_false_iff, and_self, if_true]

/-- Witness for C6: the spec's concrete instance, port `K=1` with value
bits `0b00000101`: pins 8 and 10 receive `max`, pins 9 and 11..15 receive
`min`; the pin-10 write is obtained through the theorem. -/
theorem c6_digital_port_decode_witness :
    processDigitalMessage portOneMappings 1 5 0 =
      [("t8", [("x", 20)]), ("t9", [("x", 10)]), ("t10", [("x", 20)]), ("t11", [("x", 10)]),
       ("t12", [("x", 10)]), ("t13", [("x", 10)]), ("t14", [("x", 10)]), ("t15", [("x", 10)])] ∧
    ("t10", [("x", (20 : ℚ))]) ∈ processDigitalMessage portOneMappings 1 5 0 := by
  refine ⟨by decide, ?_⟩
  have h := c6_digital_port_decode portOneMappings 1 5 0 2 (digitalMappingOn 10 "t10")
    (by decide) (by decide) (by decide) (by decide)
  simpa using h

/-- Claim C8 (amended): a key is offered by the runtime field enumeration
exactly when the target object currently holds a number under it and the
key is not one of the blacklisted keys `view`, `movingAverageWindow`. -/
theorem c8_numeric_field_enumeration (o : JsObject) (k : String) :
    k ∈ getTargetProperties (some o) ↔
      (∃ q : ℚ, (k, JsValue.num q) ∈ o) ∧ k ∉ blacklistedKeys := by
  unfold getTargetProperties
  rw [mem_sortKeys]
  constructor
  · intro h
    obtain ⟨hmap, hbl⟩ := List.mem_filter.mp h
    refine ⟨?_, by simpa using hbl⟩
    obtain ⟨kv, hkvf, hk1⟩ := List.mem_map.mp hmap
    obtain ⟨hkvmem, hnum⟩ := List.mem_filter.mp hkvf
    obtain ⟨k1, v1⟩ := kv
    cases v1 with
    | num q => exact ⟨q, by rw [← hk1]; exact hkvmem⟩
    | str s => simp [JsValue.isNumber] at hnum
    | boolean b => simp [JsValue.isNumber] at hnum
    | objv => simp [JsValue.isNumber] at hnum
  · rintro ⟨⟨q, hmem⟩, hbl⟩
    refine List.mem_filter.mpr ⟨?_, by simpa using hbl⟩
    exact List.mem_map.mpr ⟨(k, JsValue.num q), List.mem_filter.mpr ⟨hmem, rfl⟩, rfl⟩

/-- Witness for C8 (amended) at the default slider object: `max` is offered
because it holds a number and is not blacklisted. -/
theorem c8_numeric_field_enumeration_witness :
    "max" ∈ getTargetProperties (some sliderJsObject) :=
  (c8_numeric_field_enumeration sliderJsObject "max").mpr ⟨⟨500, by decide⟩, by decide⟩

/-- Counterexample to C8 as stated: on the default slider object, `view`
currently holds a number, yet the enumeration does not offer it (it is
blacklisted), so the legal set is not "any field currently holding a
number". -/
theorem c8_counterexample :
    ("view", JsValue.num 0) ∈ sliderJsObject ∧
    "view" ∉ getTargetProperties (some sliderJsObject) := by
  decide

/-- Claim C9 (amended): deleting an object removes it from the store and
drops its execution cursor, and the recomputed timer set holds no timer for
it; but the cooldown flags, registered bridge connections, digital port
shadow registers and cached last-sent output values are left untouched. -/
theorem c9_delete_scope (s : AppState) (shapeId : String) :
    (∀ o ∈ (deleteShape s shapeId).objects, o.id ≠ shapeId) ∧
    (deleteShape s shapeId).executionState.find? (fun kv => kv.1 == shapeId) = none ∧
    shapeId ∉ activeTimerIds (deleteShape s shapeId).objects ∧
    (deleteShape s shapeId).triggerCooldowns = s.triggerCooldowns ∧
    (deleteShape s shapeId).firmataConnections = s.firmataConnections ∧
    (deleteShape s shapeId).digitalPortStates = s.digitalPortStates ∧
    (deleteShape s shapeId).lastSentOutputValues = s.lastSentOutputValues := by
  refine ⟨?_, find?_of_filter_ne s.executionState shapeId, ?_, rfl, rfl, rfl, rfl⟩
  · intro o ho
    have := (List.mem_filter.mp ho).2
    simpa using this
  · intro hmem
    unfold activeTimerIds at hmem
    obtain ⟨o, hof, hoid⟩ := List.mem_map.mp hmem
    have ho : o ∈ (deleteShape s shapeId).objects := (List.mem_filter.mp hof).1
    have := (List.mem_filter.mp ho).2
    rw [hoid] at this
    simp at this

/-- Witness for C9 (amended) at the concrete rich state. -/
theorem c9_delete_scope_witness :
    (deleteShape richState "p").triggerCooldowns = richState.triggerCooldowns ∧
    (deleteShape richState "p").executionState.find? (fun kv => kv.1 == "p") = none :=
  ⟨(c9_delete_scope richState "p").2.2.2.1, (c9_delete_scope richState "p").2.1⟩

/-- Counterexample to C9 as stated: after deleting the block `p` (which is
under cooldown) and the bridge `f` (which has a registered connection, a
shadow register and a cached last-sent value), the objects are gone from
the store, yet the cooldown flag, the connection registration, the shadow
register and the cached value all survive — nothing purges them. -/
theorem c9_counterexample :
    (∀ o ∈ (deleteShape richState "p").objects, o.id ≠ "p") ∧
    "p" ∈ (deleteShape richState "p").triggerCooldowns ∧
    (∀ o ∈ (deleteShape richState "f").objects, o.id ≠ "f") ∧
    "f" ∈ (deleteShape richState "f").firmataConnections ∧
    (deleteShape richState "f").lastSentOutputValues = [("f-0", 42)] ∧
    (deleteShape richState "f").digitalPortStates = [("f", [0, 5])] := by
  decide

/-- Claim C7: encoding an in-range value `x ∈ [sourceMin, sourceMax]`
through the PWM output path (rescale into `[0,255]`, clamp, round, split
into two 7-bit payload bytes) and decoding the resulting analog-message
bytes through the analog-input decode path with matching full scale
(`adcMax = 255`, i.e. 8-bit width) and matching `min`/`max` reproduces `x`
within one scaling-rounding unit `(sourceMax - sourceMin)/255`. -/
theorem c7_pwm_analog_roundtrip (x mn mx : ℚ) (pinA : Nat) (mp : InputMapping)
    (h1 : mn ≤ x) (h2 : x ≤ mx)
    (hmode : mp.mode = InputMode.Analog) (hpin : mp.pin = pinA + 14)
    (ht : mp.targetId ≠ "") (hprop : mp.property ≠ "")
    (hmin : mp.min = mn) (hmax : mp.max = mx) (hadc : mp.adcMax = 255) :
    ∃ y : ℚ,
      processAnalogMessage [mp] pinA
        ((encodePWMCommand pinA x mn mx).getD 1 0) ((encodePWMCommand pinA x mn mx).getD 2 0)
        = [(mp.targetId, [(mp.property, y)])] ∧
      |y - x| ≤ (mx - mn) / 255 := by
  have hassemble : assembleValue (pwmValue x mn mx &&& 127) ((pwmValue x mn mx >>> 7) &&& 127)
      = pwmValue x mn mx :=
    assemble_split (pwmValue x mn mx) (Nat.lt_succ_of_le (pwmValue_le_255 x mn mx))
  refine ⟨mp.min + ((pwmValue x mn mx : ℚ) / 255) * (mp.max - mp.min), ?_, ?_⟩
  · unfold processAnalogMessage
    rw [List.find?_cons_of_pos _ (by simp [hmode, hpin])]
    simp only [ht, hprop, ne_eq, not_false_iff, and_self, if_true, hadc]
    rw [show (encodePWMCommand pinA x mn mx).getD 1 0 = pwmValue x mn mx &&& 127 from rfl,
      show (encodePWMCommand pinA x mn mx).getD 2 0 = (pwmValue x mn mx >>> 7) &&& 127 from rfl,
      hassemble]
    norm_num
  · rw [hmin, hmax]
    exact pwm_roundtrip_error x mn mx h1 h2

/-- Witness for C7 at `x = 100` over `[0, 255]` with an 8-bit mapping. -/
theorem c7_pwm_analog_roundtrip_witness :
    ∃ y : ℚ,
      processAnalogMessage [eightBitMapping] 0
        ((encodePWMCommand 0 100 0 255).getD 1 0) ((encodePWMCommand 0 100 0 255).getD 2 0)
        = [("t", [("x", y)])] ∧
      |y - 100| ≤ (255 - 0) / 255 :=
  c7_pwm_analog_roundtrip 100 0 255 0 eightBitMapping
    (by norm_num) (by norm_num) rfl rfl (by decide) (by decide) rfl rfl rfl

end CraftCanvas
